import Mathlib

/-!
Verification of the fbsmslib client (src/fbsmslib.py) against its
natural-language specification.

The Python module is shallowly embedded: every method becomes a pure Lean
function.  External collaborators (HTTP transport, XML/JSON parsing, the
PBKDF2 primitive from hashlib, the TOTP generator, the pyrate_limiter
bucket) are modelled as oracle parameters or, for the rate limiter, as the
counter the spec describes.  Side effects (network requests, sleeps, rate
checks) are made observable through explicit event logs so that claims
about "how many requests" and "in which order" become statements about
lists.  Bytes are lists of naturals; time is an integer number of seconds.
-/

deriving instance DecidableEq for Except

namespace FBSms

/-- Bytes, as Python bytes: a list of byte values. -/
abbrev Bytes := List Nat

/-- Character-list version of Python str.startswith: the first list is the
pattern, the second the string. -/
def startsW : List Char → List Char → Bool
  | [], _ => true
  | _ :: _, [] => false
  | a :: as, b :: bs => a == b && startsW as bs

/-- Python substring membership (the `in` operator on str):
does the pattern occur contiguously in the string? -/
def hasSub (pat : List Char) : List Char → Bool
  | [] => startsW pat []
  | c :: cs => startsW pat (c :: cs) || hasSub pat cs

/-- Python str.startswith on Lean strings. -/
def pyStartsWith (s p : String) : Bool := startsW p.data s.data

/-- Auxiliary splitter: accumulates the current field (reversed). -/
def splitAux (sep : Char) : List Char → List Char → List (List Char)
  | [], acc => [acc.reverse]
  | c :: cs, acc =>
      if c == sep then acc.reverse :: splitAux sep cs []
      else splitAux sep cs (c :: acc)

/-- Python str.split(sep) for a one-character separator. -/
def pySplit (s : String) (sep : Char) : List String :=
  (splitAux sep s.data []).map String.mk

/-- Value of one hexadecimal digit; Python bytes.fromhex accepts both
cases. -/
def hexVal (c : Char) : Option Nat :=
  if '0' ≤ c ∧ c ≤ '9' then some (c.toNat - '0'.toNat)
  else if 'a' ≤ c ∧ c ≤ 'f' then some (c.toNat - 'a'.toNat + 10)
  else if 'A' ≤ c ∧ c ≤ 'F' then some (c.toNat - 'A'.toNat + 10)
  else none

/-- Python bytes.fromhex on a list of characters: pairs of hex digits. -/
def hexDecodeL : List Char → Option Bytes
  | [] => some []
  | [_] => none
  | a :: b :: rest => do
      let hi ← hexVal a
      let lo ← hexVal b
      let tail ← hexDecodeL rest
      return (16 * hi + lo) :: tail

/-- Python bytes.fromhex. -/
def hexDecode (s : String) : Option Bytes := hexDecodeL s.data

/-- Lowercase hexadecimal digit for a value below 16, as Python hex
output uses. -/
def hexDigit (n : Nat) : Char :=
  if n < 10 then Char.ofNat ('0'.toNat + n)
  else Char.ofNat ('a'.toNat + n - 10)

/-- Python bytes.hex as a character list: two lowercase digits per byte. -/
def hexEncodeL : Bytes → List Char
  | [] => []
  | b :: rest => hexDigit (b / 16) :: hexDigit (b % 16) :: hexEncodeL rest

/-- Python bytes.hex. -/
def hexEncode (bs : Bytes) : String := String.mk (hexEncodeL bs)

/-- Numeric value of a digit string. -/
def digitsToNat (cs : List Char) : Nat :=
  cs.foldl (fun acc c => 10 * acc + (c.toNat - '0'.toNat)) 0

/-- Python int() restricted to the nonempty digit strings that appear in
well-formed challenge fields; anything else is a ValueError (none). -/
def pyInt (s : String) : Option Nat :=
  if s.data ≠ [] ∧ s.data.all Char.isDigit then some (digitsToNat s.data)
  else none

/-- The type of the PBKDF2-HMAC-SHA256 primitive (hashlib.pbkdf2_hmac with
"sha256" and default 32-byte output): password bytes, salt, iteration
count to derived key.  hashlib is an external collaborator, so the
primitive is a parameter of the embedding. -/
abbrev Pbkdf2 := Bytes → Bytes → Nat → Bytes

/-- FBSMSLib.calculate_pbkdf2_response (src/fbsmslib.py:82-94), with the
password already UTF-8 encoded (str.encode is an external primitive) and
the PBKDF2 primitive as a parameter.  none models the ValueError /
IndexError raised on a malformed challenge. -/
def calculate_pbkdf2_response (pbkdf2 : Pbkdf2) (password : Bytes)
    (challenge : String) : Option String := do
  let challenge_parts := pySplit challenge '$'
  let p1 ← challenge_parts[1]?
  let iter1 ← pyInt p1
  let p2 ← challenge_parts[2]?
  let salt1 ← hexDecode p2
  let p3 ← challenge_parts[3]?
  let iter2 ← pyInt p3
  let p4 ← challenge_parts[4]?
  let salt2 ← hexDecode p4
  let hash1 := pbkdf2 password salt1 iter1
  let hash2 := pbkdf2 hash1 salt2 iter2
  return p4 ++ "$" ++ hexEncode hash2

/-- LoginState (src/fbsmslib.py:9-13): challenge string and block time as
fetched from the device. -/
structure LoginState where
  challenge : String
  blocktime : Int
deriving DecidableEq

/-- The is_pbkdf2 field computed in LoginState.__init__
(src/fbsmslib.py:13): derived from the challenge, so modelled as a
function. -/
def LoginState.is_pbkdf2 (s : LoginState) : Bool :=
  pyStartsWith s.challenge "2$"

/-- The error kinds of the spec's taxonomy, mapped onto the exceptions the
code raises: challengeFetchFailed is the wrapped "failed to get challenge",
unsupportedChallengeKind the "FRITZ!Box does not support PBKDF2" message,
challengeMalformed the unwrapped ValueError or IndexError from parsing a
challenge that starts with the marker but is malformed, loginSubmitFailed
the wrapped "failed to login", invalidCredentials the "wrong username or
password" message, rateLimitExceeded the "Rate limit exceeded" RuntimeError,
validationError or sendInitiationFailed the two RuntimeError branches after
the first apply, unsupportedSecondFactor and unexpectedProtocolState the two
NotImplementedError branches, transportFailed the RuntimeError from
safe_post_request, keyMissing a KeyError on a response missing an accessed
field. -/
inductive FBError
  | challengeFetchFailed
  | unsupportedChallengeKind
  | challengeMalformed
  | loginSubmitFailed
  | invalidCredentials
  | rateLimitExceeded
  | validationError (detail : String)
  | sendInitiationFailed
  | unsupportedSecondFactor (method : String)
  | unexpectedProtocolState (value : String)
  | transportFailed
  | keyMissing
deriving DecidableEq

/-- Observable steps of the authentication exchange. -/
inductive AuthEvent
  | fetchChallenge
  | pbkdf2Run (challenge : String)
  | sleepFor (seconds : Int)
  | submitResp (response : String)
deriving DecidableEq

/-- Recognizer for the PBKDF2-computation event. -/
def AuthEvent.isPbkdf2Run : AuthEvent → Bool
  | .pbkdf2Run _ => true
  | _ => false

/-- The external collaborators of the authentication exchange: password
bytes, the PBKDF2 primitive, the result of get_login_state
(src/fbsmslib.py:73-80; none models a transport or XML parse failure),
and the result of send_response (src/fbsmslib.py:96-105) as a function of
the submitted challenge response (none again a transport or parse
failure). -/
structure AuthEnv where
  password : Bytes
  pbkdf2 : Pbkdf2
  fetch : Option LoginState
  submit : String → Option String

/-- FBSMSLib._get_sid (src/fbsmslib.py:48-71): fetch the login state,
require the PBKDF2 marker, compute the response, honour the block time,
submit, and reject the all-zero sentinel sid.  Returns the result together
with the log of observable steps. -/
def get_sid (env : AuthEnv) : Except FBError String × List AuthEvent :=
  match env.fetch with
  | none => (.error .challengeFetchFailed, [.fetchChallenge])
  | some state =>
    if state.is_pbkdf2 then
      match calculate_pbkdf2_response env.pbkdf2 env.password state.challenge with
      | none => (.error .challengeMalformed,
          [.fetchChallenge, .pbkdf2Run state.challenge])
      | some challenge_response =>
        let log := [AuthEvent.fetchChallenge, .pbkdf2Run state.challenge] ++
          (if state.blocktime > 0 then [AuthEvent.sleepFor state.blocktime] else []) ++
          [AuthEvent.submitResp challenge_response]
        match env.submit challenge_response with
        | none => (.error .loginSubmitFailed, log)
        | some sid =>
          if sid = "0000000000000000" then (.error .invalidCredentials, log)
          else (.ok sid, log)
    else (.error .unsupportedChallengeKind, [.fetchChallenge])

/-- The session fields of FBSMSLib (src/fbsmslib.py:24-25): the cached sid
and its expiry deadline.  In the source the initial timeout is None, but
the short-circuit on line 43 means it is never compared while the sid is
None, so it is modelled as an arbitrary integer (0) initially. -/
structure SessionState where
  sid : Option String
  sid_timeout : Int
deriving DecidableEq

/-- FBSMSLib.get_current_sid (src/fbsmslib.py:41-46): re-authenticate when
there is no sid or the current time is past the deadline, then set the
deadline to now + 19 minutes and return the sid.  Time is modelled as
constant during the call (the `now` parameter); on an authentication
failure the exception propagates before line 45, so the state is
unchanged. -/
def get_current_sid (now : Int) (env : AuthEnv) (st : SessionState) :
    Except FBError String × SessionState × List AuthEvent :=
  if st.sid.isNone || decide (now > st.sid_timeout) then
    match get_sid env with
    | (.ok s, log) => (.ok s, ⟨some s, now + 19 * 60⟩, log)
    | (.error e, log) => (.error e, st, log)
  else
    (.ok (st.sid.getD ""), ⟨st.sid, now + 19 * 60⟩, [])

/-- FBSMSLib.__init__ (src/fbsmslib.py:27-39), restricted to the session
fields: the constructor ends by calling get_current_sid on the initial
state (sid None), so it performs the full authentication exchange and any
failure propagates out of the constructor. -/
def fbsmslib_init (now : Int) (env : AuthEnv) :
    Except FBError SessionState × List AuthEvent :=
  match get_current_sid now env ⟨none, 0⟩ with
  | (.ok _, st, log) => (.ok st, log)
  | (.error e, _, log) => (.error e, log)

/-- The fields of the first apply response's data object that send_sms
reads (src/fbsmslib.py:156-165).  Option models a possibly missing JSON
key (a read of a missing key is a KeyError); redirect only has its
presence tested, so it is a Bool. -/
structure ApplyData where
  apply : Option String
  valerror : Option String
  redirect : Bool
  new_uid : Option String
deriving DecidableEq

/-- The fields of the confirm response's data object that send_sms reads
(src/fbsmslib.py:179-180). -/
structure ConfirmData where
  second_apply : Option String
  twofactor : Option String
deriving DecidableEq

/-- Observable steps of one send_sms call: the rate-limit check, the five
possible POSTs of the send protocol, and the inter-receiver pause of
send_sms_multiple. -/
inductive SendEvent
  | rateCheck
  | applyReq (receiver message : String)
  | confirmReq (uid : String)
  | tfaInfoReq
  | tfaSubmitReq (code : String)
  | finalConfirmReq (uid : String)
  | pause (seconds : Nat)
deriving DecidableEq

/-- Is the event a network request (a POST), as opposed to the local rate
check or a sleep? -/
def SendEvent.isNetReq : SendEvent → Bool
  | .rateCheck => false
  | .pause _ => false
  | _ => true

/-- Recognizer for the rate-limit check event. -/
def SendEvent.isRateCheck : SendEvent → Bool
  | .rateCheck => true
  | _ => false

/-- Recognizer for the inter-receiver pause event. -/
def SendEvent.isPause : SendEvent → Bool
  | .pause _ => true
  | _ => false

/-- Modelled from the spec: the pyrate_limiter collaborator
(InMemoryBucket and Limiter, external library) as the spec describes it —
an opaque capacity for the "sms_send" key within the current window, from
which try_acquire consumes one unit and fails when exhausted. -/
structure Limiter where
  consumed : Nat
  capacity : Nat
deriving DecidableEq

/-- FBSMSLib.enforce_rate_limit (src/fbsmslib.py:130-137): try_acquire on
the bucket, re-raised as the rate-limit RuntimeError when the budget is
exhausted; success consumes one unit. -/
def enforce_rate_limit (l : Limiter) : Except FBError Limiter :=
  if l.consumed < l.capacity then .ok ⟨l.consumed + 1, l.capacity⟩
  else .error .rateLimitExceeded

/-- The external collaborators of one send_sms call: the cached sid (the
get_current_sid calls inside send_sms, modelled as returning the cached
value), the current TOTP code (pyotp is external), the device's response
to the first apply POST and to the confirm POST (none is a transport
error from safe_post_request), and the transport outcome of the three
two-factor POSTs whose bodies the code never reads. -/
structure SendEnv where
  sid : String
  totp_code : String
  resp1 : Option ApplyData
  resp2 : Option ConfirmData
  tfaInfoOk : Bool
  tfaSubmitOk : Bool
  finalOk : Bool

/-- The body of FBSMSLib.send_sms after the rate-limit check
(src/fbsmslib.py:142-218): first apply POST, apply/valerror/redirect
handling, confirm POST, and the two-factor branch on second_apply and the
googleauth substring test, in source order. -/
def send_sms_rest (env : SendEnv) (receiver message : String) :
    Except FBError Unit × List SendEvent :=
  let log0 := [SendEvent.applyReq receiver message]
  match env.resp1 with
  | none => (.error .transportFailed, log0)
  | some d1 =>
    match d1.apply with
    | none => (.error .keyMissing, log0)
    | some a =>
      if a ≠ "ok" then
        if a = "valerror" then
          match d1.valerror with
          | none => (.error .keyMissing, log0)
          | some v => (.error (.validationError v), log0)
        else (.error .sendInitiationFailed, log0)
      else if d1.redirect then (.ok (), log0)
      else
        match d1.new_uid with
        | none => (.error .keyMissing, log0)
        | some uid =>
          let log1 := log0 ++ [SendEvent.confirmReq uid]
          match env.resp2 with
          | none => (.error .transportFailed, log1)
          | some d2 =>
            match d2.second_apply with
            | none => (.error .keyMissing, log1)
            | some sa =>
              if sa = "twofactor" then
                match d2.twofactor with
                | none => (.error .keyMissing, log1)
                | some tf =>
                  if hasSub "googleauth".data tf.data then
                    let log2 := log1 ++ [SendEvent.tfaInfoReq]
                    if !env.tfaInfoOk then (.error .transportFailed, log2)
                    else
                      let log3 := log2 ++ [SendEvent.tfaSubmitReq env.totp_code]
                      if !env.tfaSubmitOk then (.error .transportFailed, log3)
                      else
                        let log4 := log3 ++ [SendEvent.finalConfirmReq uid]
                        if !env.finalOk then (.error .transportFailed, log4)
                        else (.ok (), log4)
                  else (.error (.unsupportedSecondFactor tf), log1)
              else (.error (.unexpectedProtocolState sa), log1)

/-- FBSMSLib.send_sms (src/fbsmslib.py:139-218): enforce_rate_limit first,
then the protocol body.  Returns the result, the limiter state after the
call, and the event log. -/
def send_sms (env : SendEnv) (l : Limiter) (receiver message : String) :
    Except FBError Unit × Limiter × List SendEvent :=
  match enforce_rate_limit l with
  | .error e => (.error e, l, [.rateCheck])
  | .ok l2 =>
    match send_sms_rest env receiver message with
    | (r, log) => (r, l2, .rateCheck :: log)

/-- The loop body of FBSMSLib.send_sms_multiple (src/fbsmslib.py:222-226)
with the enumerate index made explicit: sleep 5 seconds before every
receiver except the one at index 0, then send; an exception aborts the
loop.  Each receiver may see different device responses, hence the
per-index environment. -/
def send_sms_multipleAux (envs : Nat → SendEnv) (message : String) :
    Nat → Limiter → List String → Except FBError Unit × Limiter × List SendEvent
  | _, l, [] => (.ok (), l, [])
  | i, l, r :: rs =>
    let pre : List SendEvent := if i > 0 then [.pause 5] else []
    match send_sms (envs i) l r message with
    | (.error e, l2, log) => (.error e, l2, pre ++ log)
    | (.ok _, l2, log) =>
      match send_sms_multipleAux envs message (i + 1) l2 rs with
      | (res, l3, log2) => (res, l3, pre ++ log ++ log2)

/-- FBSMSLib.send_sms_multiple (src/fbsmslib.py:222-226). -/
def send_sms_multiple (envs : Nat → SendEnv) (l : Limiter)
    (receiver : List String) (message : String) :
    Except FBError Unit × Limiter × List SendEvent :=
  send_sms_multipleAux envs message 0 l receiver

/-- C2 counterexample: on the PBKDF2-form challenge "2$1$ab$1$AB" with an
uppercase salt2 field, the code returns the field verbatim ("AB$..."),
while hex(salt2) is lowercase ("ab"), so the claimed output
hex(salt2) + "$" + hex(hash2) differs from the actual one — here with a
PBKDF2 oracle that returns the empty digest, so hash2 is [] on both
sides and the only difference is the salt2 case.  The claim as stated is
therefore false. -/
theorem calculate_pbkdf2_response_cex :
    calculate_pbkdf2_response (fun _ _ _ => []) [1] "2$1$ab$1$AB" = some "AB$" ∧
    hexDecode "AB" = some [171] ∧
    hexEncode [171] ++ "$" ++ hexEncode [] = "ab$" ∧
    ("AB$" : String) ≠ "ab$" := by decide

/-- C2 amended: for every challenge whose dollar-split has the PBKDF2 form
with parseable iteration fields and decodable salt fields,
calculate_pbkdf2_response is the pure function returning the challenge's
salt2 field verbatim, then "$", then hex(hash2), where
hash1 = PBKDF2(password, salt1, iter1) and hash2 = PBKDF2(hash1, salt2,
iter2); when the salt2 field is already the (lowercase) hex encoding of
salt2, this coincides with the claimed hex(salt2) + "$" + hex(hash2). -/
theorem calculate_pbkdf2_response_amended (pb : Pbkdf2) (pw : Bytes)
    (challenge v i1s s1h i2s s2h : String) (n1 n2 : Nat) (b1 b2 : Bytes)
    (hs : pySplit challenge '$' = [v, i1s, s1h, i2s, s2h])
    (h1 : pyInt i1s = some n1) (h2 : hexDecode s1h = some b1)
    (h3 : pyInt i2s = some n2) (h4 : hexDecode s2h = some b2) :
    calculate_pbkdf2_response pb pw challenge
      = some (s2h ++ "$" ++ hexEncode (pb (pb pw b1 n1) b2 n2)) ∧
    (s2h = hexEncode b2 →
      calculate_pbkdf2_response pb pw challenge
        = some (hexEncode b2 ++ "$" ++ hexEncode (pb (pb pw b1 n1) b2 n2))) := by
  have hmain : calculate_pbkdf2_response pb pw challenge
      = some (s2h ++ "$" ++ hexEncode (pb (pb pw b1 n1) b2 n2)) := by
    simp [calculate_pbkdf2_response, hs, h1, h2, h3, h4]
  exact ⟨hmain, fun he => by rw [hmain, he]⟩

/-- Witness for the amended C2 theorem at the concrete challenge
"2$1$ab$1$cd" with a constant-empty PBKDF2 oracle. -/
theorem calculate_pbkdf2_response_amended_witness :
    calculate_pbkdf2_response (fun _ _ _ => []) [1] "2$1$ab$1$cd"
      = some ("cd" ++ "$" ++ hexEncode ((fun _ _ _ => []) ((fun _ _ _ => ([] : Bytes)) [1] [171] 1) [205] 1)) :=
  (calculate_pbkdf2_response_amended (fun _ _ _ => []) [1] "2$1$ab$1$cd"
    "2" "1" "ab" "1" "cd" 1 1 [171] [205]
    (by decide) (by decide) (by decide) (by decide) (by decide)).1

/-- C3: when the fetched challenge does not start with the PBKDF2 marker
"2$", the authentication exchange fails with the unsupported-challenge
error and the log records no PBKDF2 computation. -/
theorem get_sid_unsupported_challenge (env : AuthEnv) (st : LoginState)
    (h1 : env.fetch = some st)
    (h2 : pyStartsWith st.challenge "2$" = false) :
    (get_sid env).1 = .error .unsupportedChallengeKind ∧
    (get_sid env).2.countP AuthEvent.isPbkdf2Run = 0 := by
  simp [get_sid, h1, LoginState.is_pbkdf2, h2, List.countP, List.countP.go,
    AuthEvent.isPbkdf2Run]

/-- Witness for C3 at a legacy (MD5-style) challenge. -/
theorem get_sid_unsupported_challenge_witness :
    (get_sid ⟨[1], fun _ _ _ => [], some ⟨"m3$hashvalue", 0⟩, fun _ => some "SID1"⟩).1
      = .error .unsupportedChallengeKind ∧
    (get_sid ⟨[1], fun _ _ _ => [], some ⟨"m3$hashvalue", 0⟩, fun _ => some "SID1"⟩).2.countP
        AuthEvent.isPbkdf2Run = 0 :=
  get_sid_unsupported_challenge _ ⟨"m3$hashvalue", 0⟩ rfl (by decide)

/-- C4: whenever the login submission returns the all-zero sentinel sid,
the exchange fails with the invalid-credentials error and never yields a
successful session. -/
theorem get_sid_zero_sid_rejected (env : AuthEnv) (st : LoginState) (resp : String)
    (h1 : env.fetch = some st) (h2 : st.is_pbkdf2 = true)
    (h3 : calculate_pbkdf2_response env.pbkdf2 env.password st.challenge = some resp)
    (h4 : env.submit resp = some "0000000000000000") :
    (get_sid env).1 = .error .invalidCredentials ∧
    ∀ s, (get_sid env).1 ≠ .ok s := by
  have h : (get_sid env).1 = .error .invalidCredentials := by
    simp [get_sid, h1, h2, h3, h4]
  exact ⟨h, fun s hc => by rw [h] at hc; exact Except.noConfusion hc⟩

/-- Witness for C4 with a device that always answers the sentinel sid. -/
theorem get_sid_zero_sid_rejected_witness :
    (get_sid ⟨[1], fun _ _ _ => [], some ⟨"2$1$ab$1$cd", 0⟩,
        fun _ => some "0000000000000000"⟩).1 = .error .invalidCredentials :=
  (get_sid_zero_sid_rejected _ ⟨"2$1$ab$1$cd", 0⟩ "cd$" rfl (by decide)
    (by decide) rfl).1

/-- C1 counterexample: start from the state produced by a successful
authentication at time 0 (sid "S", deadline 0 + 19 * 60 = 1140).  A call
at time 600 returns the cached sid with no authentication exchange (empty
log), yet rewrites the deadline to 600 + 1140 = 1740 — refuting the
claim's "the expiry deadline is set to now + 19 minutes only on calls
that trigger re-authentication".  Consequently a later call at time 1200,
which is past the claimed t + 19-minute mark of 1140, still returns the
cached sid with no new authentication exchange — refuting "the first call
after that mark triggers exactly one new authentication exchange". -/
theorem get_current_sid_cex :
    (get_current_sid 600 ⟨[1], fun _ _ _ => [], none, fun _ => none⟩
        ⟨some "S", 1140⟩).1 = Except.ok "S" ∧
    (get_current_sid 600 ⟨[1], fun _ _ _ => [], none, fun _ => none⟩
        ⟨some "S", 1140⟩).2.2 = [] ∧
    (get_current_sid 600 ⟨[1], fun _ _ _ => [], none, fun _ => none⟩
        ⟨some "S", 1140⟩).2.1 = ⟨some "S", 1740⟩ ∧
    (1740 : Int) ≠ 1140 ∧
    (1200 : Int) > 1140 ∧
    (get_current_sid 1200 ⟨[1], fun _ _ _ => [], none, fun _ => none⟩
        ⟨some "S", 1740⟩).1 = Except.ok "S" ∧
    (get_current_sid 1200 ⟨[1], fun _ _ _ => [], none, fun _ => none⟩
        ⟨some "S", 1740⟩).2.2 = [] := by decide

/-- C1 amended: every call to get_current_sid sets the deadline to
now + 19 minutes, whether or not it re-authenticates (a sliding window
anchored to the most recent call, not to the last authentication).  A
call returns the cached sid without any authentication exchange exactly
when a sid is cached and the current time does not exceed the deadline
left by the previous call; a call with no cached sid, or past that
deadline, performs exactly one authentication exchange, and a failed
exchange leaves the state unchanged. -/
theorem get_current_sid_amended (now t : Int) (s : String) (env : AuthEnv) :
    (now ≤ t →
      get_current_sid now env ⟨some s, t⟩
        = (Except.ok s, ⟨some s, now + 19 * 60⟩, [])) ∧
    (now > t →
      get_current_sid now env ⟨some s, t⟩
        = (match get_sid env with
           | (.ok s2, log) => (Except.ok s2, ⟨some s2, now + 19 * 60⟩, log)
           | (.error e, log) => (Except.error e, ⟨some s, t⟩, log))) ∧
    get_current_sid now env ⟨none, t⟩
      = (match get_sid env with
         | (.ok s2, log) => (Except.ok s2, ⟨some s2, now + 19 * 60⟩, log)
         | (.error e, log) => (Except.error e, ⟨none, t⟩, log)) := by
  refine ⟨fun h => ?_, fun h => ?_, ?_⟩
  · simp [get_current_sid, not_lt.mpr h]
  · rcases hg : get_sid env with ⟨r, log⟩
    cases r <;> simp_all [get_current_sid, hg]
  · rcases hg : get_sid env with ⟨r, log⟩
    cases r <;> simp_all [get_current_sid, hg]

/-- Witness for the amended C1 theorem: a call within the window keeps the
sid and slides the deadline; a call past the window re-authenticates. -/
theorem get_current_sid_amended_witness :
    get_current_sid 600 ⟨[1], fun _ _ _ => [], some ⟨"2$1$ab$1$cd", 0⟩,
        fun _ => some "SID2"⟩ ⟨some "S", 1140⟩
      = (Except.ok "S", ⟨some "S", 600 + 19 * 60⟩, []) ∧
    get_current_sid 1200 ⟨[1], fun _ _ _ => [], some ⟨"2$1$ab$1$cd", 0⟩,
        fun _ => some "SID2"⟩ ⟨some "S", 1140⟩
      = (Except.ok "SID2", ⟨some "SID2", 1200 + 19 * 60⟩,
         [AuthEvent.fetchChallenge, AuthEvent.pbkdf2Run "2$1$ab$1$cd",
          AuthEvent.submitResp "cd$"]) := by
  constructor
  · exact (get_current_sid_amended 600 1140 "S"
      ⟨[1], fun _ _ _ => [], some ⟨"2$1$ab$1$cd", 0⟩, fun _ => some "SID2"⟩).1
      (by decide)
  · rw [(get_current_sid_amended 1200 1140 "S"
      ⟨[1], fun _ _ _ => [], some ⟨"2$1$ab$1$cd", 0⟩, fun _ => some "SID2"⟩).2.1
      (by decide)]
    decide

/-- C10: the constructor's session initialisation is exactly one full
authentication exchange: its event log is the exchange's log, every
exchange failure (unsupported challenge kind, invalid credentials,
transport failures) is raised from the constructor itself, and on success
the constructed client already caches the returned sid, with the deadline
now + 19 minutes. -/
theorem fbsmslib_init_authenticates (now : Int) (env : AuthEnv) :
    (fbsmslib_init now env).2 = (get_sid env).2 ∧
    (∀ e, (get_sid env).1 = .error e → (fbsmslib_init now env).1 = .error e) ∧
    ∀ s, (get_sid env).1 = .ok s →
      (fbsmslib_init now env).1 = .ok ⟨some s, now + 19 * 60⟩ := by
  rcases hg : get_sid env with ⟨r, log⟩
  cases r <;> simp_all [fbsmslib_init, get_current_sid, hg]

/-- Witness for C10: on a device granting sid "SID1", construction
succeeds with that sid cached; on a device whose challenge endpoint is
unreachable, the constructor raises the fetch failure. -/
theorem fbsmslib_init_authenticates_witness :
    (fbsmslib_init 0 ⟨[1], fun _ _ _ => [], some ⟨"2$1$ab$1$cd", 0⟩,
        fun _ => some "SID1"⟩).1 = .ok ⟨some "SID1", 0 + 19 * 60⟩ ∧
    (fbsmslib_init 0 ⟨[1], fun _ _ _ => [], none, fun _ => none⟩).1
      = .error .challengeFetchFailed := by
  constructor
  · exact (fbsmslib_init_authenticates 0
      ⟨[1], fun _ _ _ => [], some ⟨"2$1$ab$1$cd", 0⟩, fun _ => some "SID1"⟩).2.2
      "SID1" (by decide)
  · exact (fbsmslib_init_authenticates 0
      ⟨[1], fun _ _ _ => [], none, fun _ => none⟩).2.1
      .challengeFetchFailed (by decide)

/-- Helper: the protocol body after the rate-limit check logs no rate
check and no pause, whatever the device answers. -/
theorem send_sms_rest_log_counts (env : SendEnv) (r m : String) :
    (send_sms_rest env r m).2.countP SendEvent.isRateCheck = 0 ∧
    (send_sms_rest env r m).2.countP SendEvent.isPause = 0 := by
  unfold send_sms_rest
  repeat' split
  all_goals simp [List.countP_cons, List.countP_append, List.countP_nil,
    SendEvent.isRateCheck, SendEvent.isPause]

/-- Helper: every send_sms call logs exactly one rate check, as its first
event, and no pause. -/
theorem send_sms_log_counts (env : SendEnv) (l : Limiter) (r m : String) :
    (send_sms env l r m).2.2.countP SendEvent.isRateCheck = 1 ∧
    (send_sms env l r m).2.2.countP SendEvent.isPause = 0 ∧
    (send_sms env l r m).2.2.head? = some .rateCheck := by
  unfold send_sms
  rcases h : enforce_rate_limit l with e | l2
  · simp [List.countP, List.countP.go, SendEvent.isRateCheck, SendEvent.isPause]
  · have hc := send_sms_rest_log_counts env r m
    rcases hr : send_sms_rest env r m with ⟨res, log⟩
    rw [hr] at hc
    simp [List.countP_cons, hc.1, hc.2, SendEvent.isRateCheck, SendEvent.isPause]

/-- C5: each send_sms call checks the admission gate exactly once, as its
very first step, before any network request; when the capacity of the
window is already fully consumed, the attempt fails with the rate-limit
error and performs zero network requests; a call that passes the gate
consumes exactly one unit. -/
theorem send_sms_admission_gate (env : SendEnv) (r m : String) (k : Nat) :
    (send_sms env ⟨k, k⟩ r m).1 = .error .rateLimitExceeded ∧
    (send_sms env ⟨k, k⟩ r m).2.2.countP SendEvent.isNetReq = 0 ∧
    (∀ l : Limiter, (send_sms env l r m).2.2.countP SendEvent.isRateCheck = 1 ∧
      (send_sms env l r m).2.2.head? = some .rateCheck) ∧
    ∀ c cap : Nat, c < cap → (send_sms env ⟨c, cap⟩ r m).2.1 = ⟨c + 1, cap⟩ := by
  refine ⟨?_, ?_, fun l => ⟨(send_sms_log_counts env l r m).1,
    (send_sms_log_counts env l r m).2.2⟩, fun c cap h => ?_⟩
  · simp [send_sms, enforce_rate_limit]
  · simp [send_sms, enforce_rate_limit, List.countP_cons, List.countP_nil,
      SendEvent.isNetReq]
  · rcases hr : send_sms_rest env r m with ⟨res, log⟩
    simp [send_sms, enforce_rate_limit, h, hr]

/-- Witness for C5 with a fully consumed budget of 10 and a fresh budget
of 0 of 10. -/
theorem send_sms_admission_gate_witness :
    (send_sms ⟨"s", "c", none, none, true, true, true⟩ ⟨10, 10⟩ "r" "m").1
      = .error .rateLimitExceeded ∧
    (send_sms ⟨"s", "c", none, none, true, true, true⟩ ⟨10, 10⟩ "r" "m").2.2.countP
        SendEvent.isNetReq = 0 ∧
    (send_sms ⟨"s", "c", none, none, true, true, true⟩ ⟨0, 10⟩ "r" "m").2.1
      = ⟨0 + 1, 10⟩ := by
  have h := send_sms_admission_gate ⟨"s", "c", none, none, true, true, true⟩ "r" "m" 10
  exact ⟨h.1, h.2.1, h.2.2.2 0 10 (by decide)⟩

/-- C6: when the first apply response has apply "ok" and carries a
redirect field, send_sms succeeds after exactly the one apply request
(the log holds the rate check and one network request, nothing more). -/
theorem send_sms_redirect_done (env : SendEnv) (l : Limiter) (r m : String)
    (d1 : ApplyData)
    (h0 : l.consumed < l.capacity) (h1 : env.resp1 = some d1)
    (h2 : d1.apply = some "ok") (h3 : d1.redirect = true) :
    (send_sms env l r m).1 = .ok () ∧
    (send_sms env l r m).2.2 = [.rateCheck, .applyReq r m] := by
  simp [send_sms, enforce_rate_limit, h0, send_sms_rest, h1, h2, h3]

/-- Witness for C6 at a device answering apply "ok" with a redirect. -/
theorem send_sms_redirect_done_witness :
    (send_sms ⟨"s", "c", some ⟨some "ok", none, true, none⟩, none, true, true, true⟩
        ⟨0, 10⟩ "r" "m").1 = .ok () ∧
    (send_sms ⟨"s", "c", some ⟨some "ok", none, true, none⟩, none, true, true, true⟩
        ⟨0, 10⟩ "r" "m").2.2 = [.rateCheck, .applyReq "r" "m"] :=
  send_sms_redirect_done _ ⟨0, 10⟩ "r" "m" ⟨some "ok", none, true, none⟩
    (by decide) rfl rfl rfl

/-- C7: when the confirm response announces a twofactor second apply whose
method names the supported googleauth one, send_sms issues the five
requests apply, confirm, factor probe, factor submit, final confirm in
that order, and it succeeds exactly when all three of the probe, submit
and final-confirm POSTs go through (the first two responses being
well-formed is already assumed by reaching this branch). -/
theorem send_sms_twofactor_flow (sid code r m uid tf : String) (l : Limiter)
    (va : Option String) (t3 t4 t5 : Bool)
    (h0 : l.consumed < l.capacity)
    (htf : hasSub "googleauth".data tf.data = true) :
    ((send_sms ⟨sid, code, some ⟨some "ok", va, false, some uid⟩,
        some ⟨some "twofactor", some tf⟩, t3, t4, t5⟩ l r m).1 = .ok ()
      ↔ (t3 && t4 && t5) = true) ∧
    (t3 = true → t4 = true → t5 = true →
      (send_sms ⟨sid, code, some ⟨some "ok", va, false, some uid⟩,
         some ⟨some "twofactor", some tf⟩, t3, t4, t5⟩ l r m).2.2
        = [.rateCheck, .applyReq r m, .confirmReq uid, .tfaInfoReq,
           .tfaSubmitReq code, .finalConfirmReq uid]) := by
  cases t3 <;> cases t4 <;> cases t5 <;>
    simp [send_sms, enforce_rate_limit, h0, send_sms_rest, htf]

/-- Witness for C7 at a device whose twofactor method string contains
googleauth and whose three second-factor POSTs all succeed. -/
theorem send_sms_twofactor_flow_witness :
    (send_sms ⟨"s", "123456", some ⟨some "ok", none, false, some "U1"⟩,
        some ⟨some "twofactor", some "tfa_googleauth"⟩, true, true, true⟩
        ⟨0, 10⟩ "r" "m").1 = .ok () ∧
    (send_sms ⟨"s", "123456", some ⟨some "ok", none, false, some "U1"⟩,
        some ⟨some "twofactor", some "tfa_googleauth"⟩, true, true, true⟩
        ⟨0, 10⟩ "r" "m").2.2
      = [.rateCheck, .applyReq "r" "m", .confirmReq "U1", .tfaInfoReq,
         .tfaSubmitReq "123456", .finalConfirmReq "U1"] := by
  have h := send_sms_twofactor_flow "s" "123456" "r" "m" "U1" "tfa_googleauth"
    ⟨0, 10⟩ none true true true (by decide) (by decide)
  exact ⟨h.1.mpr (by decide), h.2 rfl rfl rfl⟩

/-- C8: when the confirm response announces a twofactor second apply but
its method string does not name googleauth, send_sms fails with the
unsupported-second-factor error carrying that method string, and the log
ends at the confirm request: no request is issued after the confirm
response. -/
theorem send_sms_unsupported_factor (sid code r m uid tf : String) (l : Limiter)
    (va : Option String) (t3 t4 t5 : Bool)
    (h0 : l.consumed < l.capacity)
    (htf : hasSub "googleauth".data tf.data = false) :
    (send_sms ⟨sid, code, some ⟨some "ok", va, false, some uid⟩,
        some ⟨some "twofactor", some tf⟩, t3, t4, t5⟩ l r m).1
      = .error (.unsupportedSecondFactor tf) ∧
    (send_sms ⟨sid, code, some ⟨some "ok", va, false, some uid⟩,
        some ⟨some "twofactor", some tf⟩, t3, t4, t5⟩ l r m).2.2
      = [.rateCheck, .applyReq r m, .confirmReq uid] := by
  simp [send_sms, enforce_rate_limit, h0, send_sms_rest, htf]

/-- Witness for C8 at a device announcing an unsupported second-factor
method. -/
theorem send_sms_unsupported_factor_witness :
    (send_sms ⟨"s", "c", some ⟨some "ok", none, false, some "U1"⟩,
        some ⟨some "twofactor", some "tfa_push"⟩, true, true, true⟩
        ⟨0, 10⟩ "r" "m").1 = .error (.unsupportedSecondFactor "tfa_push") ∧
    (send_sms ⟨"s", "c", some ⟨some "ok", none, false, some "U1"⟩,
        some ⟨some "twofactor", some "tfa_push"⟩, true, true, true⟩
        ⟨0, 10⟩ "r" "m").2.2
      = [.rateCheck, .applyReq "r" "m", .confirmReq "U1"] :=
  send_sms_unsupported_factor "s" "c" "r" "m" "U1" "tfa_push" ⟨0, 10⟩
    none true true true (by decide) (by decide)

/-- Helper for C9: counts of pauses and rate checks along a successful
run of the send_sms_multiple loop, for any starting index. -/
theorem send_sms_multipleAux_ok_counts (envs : Nat → SendEnv) (msg : String) :
    ∀ (rs : List String) (i : Nat) (l : Limiter),
      (send_sms_multipleAux envs msg i l rs).1 = .ok () →
      (send_sms_multipleAux envs msg i l rs).2.2.countP SendEvent.isPause
          = (if i = 0 then rs.length - 1 else rs.length) ∧
      (send_sms_multipleAux envs msg i l rs).2.2.countP SendEvent.isRateCheck
          = rs.length ∧
      (i = 0 → rs ≠ [] →
        (send_sms_multipleAux envs msg i l rs).2.2.head? = some .rateCheck) := by
  intro rs
  induction rs with
  | nil =>
    intro i l _
    simp [send_sms_multipleAux]
  | cons r rs ih =>
    intro i l h
    rcases hs : send_sms (envs i) l r msg with ⟨res, l2, log⟩
    rcases res with e | u
    · exfalso
      simp [send_sms_multipleAux, hs] at h
    · rcases hrec : send_sms_multipleAux envs msg (i + 1) l2 rs with ⟨res3, l3, log2⟩
      have h3 : res3 = .ok () := by
        simpa [send_sms_multipleAux, hs, hrec] using h
      have ihh := ih (i + 1) l2
      rw [hrec] at ihh
      have hcounts := ihh (by rw [h3])
      have hp2 : log2.countP SendEvent.isPause = rs.length := by
        have h4 := hcounts.1
        rwa [if_neg (by omega)] at h4
      have hr2 : log2.countP SendEvent.isRateCheck = rs.length := hcounts.2.1
      have hl := send_sms_log_counts (envs i) l r msg
      rw [hs] at hl
      rcases log with _ | ⟨a, log⟩
      · exact absurd hl.2.2 (by simp)
      have ha : a = .rateCheck := by simpa using hl.2.2
      subst ha
      have hp1 : log.countP SendEvent.isPause = 0 := by
        have h5 := hl.2.1
        rw [List.countP_cons, if_neg (by decide)] at h5
        omega
      have hr1 : log.countP SendEvent.isRateCheck = 0 := by
        have h5 := hl.1
        rw [List.countP_cons, if_pos (by decide)] at h5
        omega
      cases i with
      | zero =>
        simp only [send_sms_multipleAux, hs, hrec]
        refine ⟨?_, ?_, fun _ _ => by simp⟩
        · simp [List.countP_append, List.countP_cons, hp1, hp2,
            SendEvent.isPause]
        · simp [List.countP_append, List.countP_cons, hr1, hr2,
            SendEvent.isRateCheck]
      | succ n =>
        simp only [send_sms_multipleAux, hs, hrec]
        refine ⟨?_, ?_, fun hc => absurd hc (by simp)⟩
        · simp only [gt_iff_lt, Nat.succ_pos, if_pos]
          simp [List.countP_append, List.countP_cons, hp1, hp2,
            SendEvent.isPause]
        · simp only [gt_iff_lt, Nat.succ_pos, if_pos]
          simp [List.countP_append, List.countP_cons, hr1, hr2,
            SendEvent.isRateCheck]

/-- C9 counterexample: with two receivers and a device whose first apply
POST fails with a transport error, the first send raises, the loop
aborts, and the remaining receiver is never attempted: the run performs
one state-machine run (one rate check) instead of the claimed N = 2, and
zero pauses instead of the claimed N - 1 = 1.  The claim's unconditional
"exactly N times ... exactly N - 1 pauses" is therefore false. -/
theorem send_sms_multiple_cex :
    (send_sms_multiple (fun _ => ⟨"s", "c", none, none, true, true, true⟩)
        ⟨0, 10⟩ ["a", "b"] "m").1 = .error .transportFailed ∧
    (send_sms_multiple (fun _ => ⟨"s", "c", none, none, true, true, true⟩)
        ⟨0, 10⟩ ["a", "b"] "m").2.2
      = [.rateCheck, .applyReq "a" "m"] ∧
    (send_sms_multiple (fun _ => ⟨"s", "c", none, none, true, true, true⟩)
        ⟨0, 10⟩ ["a", "b"] "m").2.2.countP SendEvent.isRateCheck = 1 ∧
    (1 : Nat) ≠ (["a", "b"].length) ∧
    (send_sms_multiple (fun _ => ⟨"s", "c", none, none, true, true, true⟩)
        ⟨0, 10⟩ ["a", "b"] "m").2.2.countP SendEvent.isPause = 0 ∧
    (0 : Nat) ≠ (["a", "b"].length - 1) := by decide

/-- C9 amended: send_sms_multiple walks the receivers in list order,
pausing before every receiver except the first and aborting at the first
failing send; on a run where every send succeeds it performs exactly N
state-machine runs (N rate checks) and exactly N - 1 pauses, none before
the first receiver (the log starts with the first run's rate check), so
zero pauses for N = 1. -/
theorem send_sms_multiple_amended (envs : Nat → SendEnv) (l : Limiter)
    (receivers : List String) (msg : String)
    (h : (send_sms_multiple envs l receivers msg).1 = .ok ()) :
    (send_sms_multiple envs l receivers msg).2.2.countP SendEvent.isPause
        = receivers.length - 1 ∧
    (send_sms_multiple envs l receivers msg).2.2.countP SendEvent.isRateCheck
        = receivers.length ∧
    (receivers ≠ [] →
      (send_sms_multiple envs l receivers msg).2.2.head? = some .rateCheck) := by
  have hc := send_sms_multipleAux_ok_counts envs msg receivers 0 l h
  rw [if_pos rfl] at hc
  exact ⟨hc.1, hc.2.1, hc.2.2 rfl⟩

/-- Witness for the amended C9 theorem: two receivers, both completing in
the redirect case, give one pause and two rate checks. -/
theorem send_sms_multiple_amended_witness :
    (send_sms_multiple
        (fun _ => ⟨"s", "c", some ⟨some "ok", none, true, none⟩, none, true, true, true⟩)
        ⟨0, 10⟩ ["a", "b"] "m").2.2.countP SendEvent.isPause = 1 ∧
    (send_sms_multiple
        (fun _ => ⟨"s", "c", some ⟨some "ok", none, true, none⟩, none, true, true, true⟩)
        ⟨0, 10⟩ ["a", "b"] "m").2.2.countP SendEvent.isRateCheck = 2 ∧
    (send_sms_multiple
        (fun _ => ⟨"s", "c", some ⟨some "ok", none, true, none⟩, none, true, true, true⟩)
        ⟨0, 10⟩ ["a", "b"] "m").2.2.head? = some .rateCheck := by
  have hm := send_sms_multiple_amended
    (fun _ => ⟨"s", "c", some ⟨some "ok", none, true, none⟩, none, true, true, true⟩)
    ⟨0, 10⟩ ["a", "b"] "m" (by decide)
  exact ⟨hm.1, hm.2.1, hm.2.2 (by decide)⟩

end FBSms
